import Mathlib

/-!
Shallow embedding of `core/bin/zksync_api/src/api_server/rest/v02/transaction.rs`
(the transaction part of the zkSync v0.2 REST API) and proofs about its
resolution and status-derivation algorithm.

Conventions of the embedding:
* Rust strings are `List Char`; byte slices / hashes are `List Nat`.
* Storage (`StorageProcessor`) is a record of pure lookup tables; the five
  storage operations the file consumes are modelled as reads of those tables.
  The two executed-transaction queries (`tx_receipt` of the ext schema and
  `get_executed_operation` of the operations schema) read the same underlying
  executed-transaction row; they are modelled as projections of one record.
* Every resolver returns its result paired with the list of storage queries
  it issued, in order, so that claims about which storage operations are
  consulted can be stated.
* `i64 as u32` / `i64 as u64` casts are modelled on `Int` by `% 2 ^ 32`
  (resp. `% 2 ^ 64`) followed by `Int.toNat`.
* The `serde_json::from_value` parse of `eth_sign_data` is modelled as an
  already-decoded optional value; storage-level query errors are not
  modelled because no claim concerns them.
-/

/-- Opaque JSON payload (`serde_json::Value`), only ever passed through. -/
abbrev JsonValue := String

/-- Opaque timestamp (`DateTime<Utc>`), only ever passed through. -/
abbrev Timestamp := Int

/-- Rust `i64 as u32`: the low 32 bits, as a natural number. -/
def u32cast (i : Int) : Nat := (i % (2 ^ 32 : Int)).toNat

/-- Rust `i64 as u64`: the low 64 bits, as a natural number. -/
def u64cast (i : Int) : Nat := (i % (2 ^ 64 : Int)).toNat

/-- `enum L1Status` of the source: only two variants (a `Pending` variant is
commented out in the source). -/
inductive L1Status where
  | Committed
  | Finalized
  deriving DecidableEq, Repr

/-- `enum L2Status` of the source. -/
inductive L2Status where
  | Queued
  | Committed
  | Finalized
  | Rejected
  deriving DecidableEq, Repr

/-- `impl From<L1Status> for L2Status`. -/
def L2Status.ofL1 : L1Status → L2Status
  | .Committed => .Committed
  | .Finalized => .Finalized

/-- `hex::FromHexError` (hex crate), the two cases `decode` can produce. -/
inductive FromHexError where
  | InvalidHexCharacter (c : Char) (index : Nat)
  | OddLength
  deriving DecidableEq, Repr

/-- Value of one hex digit character, `none` when the character is not a hex
digit (hex crate `val`). -/
def hexDigitVal (c : Char) : Option Nat :=
  if '0' ≤ c ∧ c ≤ '9' then some (c.toNat - '0'.toNat)
  else if 'a' ≤ c ∧ c ≤ 'f' then some (c.toNat - 'a'.toNat + 10)
  else if 'A' ≤ c ∧ c ≤ 'F' then some (c.toNat - 'A'.toNat + 10)
  else none

/-- Pairwise decoding loop of `hex::decode`, over an even-length character
list; `index` is the position of the head character in the original input.
The one-element case is unreachable because the caller checks evenness. -/
def hexDecodeCore : List Char → Nat → Except FromHexError (List Nat)
  | [], _ => .ok []
  | [_], _ => .ok []
  | c1 :: c2 :: rest, index =>
    match hexDigitVal c1 with
    | none => .error (.InvalidHexCharacter c1 index)
    | some hi =>
      match hexDigitVal c2 with
      | none => .error (.InvalidHexCharacter c2 (index + 1))
      | some lo => (hexDecodeCore rest (index + 2)).map (fun bs => (hi * 16 + lo) :: bs)

/-- `hex::decode`: rejects odd length, else decodes character pairs to bytes. -/
def hexDecode (s : List Char) : Except FromHexError (List Nat) :=
  if s.length % 2 ≠ 0 then .error .OddLength else hexDecodeCore s 0

/-- The `strip_prefix("0x")`-or-identity step of `decode_hash`. -/
def strip0x (s : List Char) : List Char :=
  if s.take 2 = ['0', 'x'] then s.drop 2 else s

/-- `ApiTransactionData::decode_hash`: strip one optional leading `0x`,
then hex-decode the remainder. -/
def decode_hash (tx_hash : List Char) : Except FromHexError (List Nat) :=
  hexDecode (strip0x tx_hash)
/-- `TxEthSignature`: the two supported signature variants; the payload is the
byte sequence the encoder renders (for `EthereumSignature`, the output of
`serialize_packed`). -/
inductive TxEthSignature where
  | EthereumSignature (packed : List Nat)
  | EIP1271Signature (bytes : List Nat)
  deriving DecidableEq, Repr

/-- `EthSignData`: the source only ever reads its `signature` field. -/
structure EthSignData where
  signature : TxEthSignature
  deriving DecidableEq, Repr

/-- Stored executed priority operation row
(`get_executed_priority_operation_by_hash` result); numeric columns are `i64`. -/
structure PriorityOpRecord where
  eth_block : Int
  block_number : Int
  priority_op_serialid : Int
  operation : JsonValue
  created_at : Timestamp
  deriving DecidableEq, Repr

/-- Underlying executed-transaction row. `tx_receipt` projects
`block_number`, `success`, `verified`, `fail_reason` out of it;
`get_executed_operation` projects `block_number`, `success`, `fail_reason`,
`tx`, `eth_sign_data`, `created_at`. -/
structure ExecutedTxRecord where
  block_number : Int
  success : Bool
  verified : Bool
  fail_reason : Option (List Char)
  tx : JsonValue
  eth_sign_data : Option EthSignData
  created_at : Timestamp
  deriving DecidableEq, Repr

/-- Mempool row (`get_mempool_tx` result). -/
structure MempoolTxRecord where
  tx : JsonValue
  eth_sign_data : Option EthSignData
  created_at : Timestamp
  deriving DecidableEq, Repr

/-- Stored aggregated operation row; the source only reads `confirmed`. -/
structure StoredAggregatedOperation where
  confirmed : Bool
  deriving DecidableEq, Repr

/-- The storage state visible to this file: the four lookup tables behind the
five storage operations it performs.  `executed_priority_ops` is keyed by the
base-chain hash bytes, `executed_txs` and `mempool` by the rollup hash bytes,
`aggregated_execute_ops` by rollup block number (for the `ExecuteBlocks`
action kind, the only kind this file queries). -/
structure Storage where
  executed_priority_ops : List Nat → Option PriorityOpRecord
  aggregated_execute_ops : Nat → Option StoredAggregatedOperation
  executed_txs : List Nat → Option ExecutedTxRecord
  mempool : List Nat → Option MempoolTxRecord

/-- One storage operation issued by a resolver, with its key. -/
inductive StorageQuery where
  | findPriorityOpByHash (key : List Nat)
  | findAggregatedOperation (block : Nat)
  | findExecutedTxByHash (key : List Nat)
  | pendingPoolContains (key : List Nat)
  | findPendingTxByHash (key : List Nat)
  deriving DecidableEq, Repr

/-- `struct L1Receipt` (output shape). -/
structure L1Receipt where
  status : L1Status
  eth_block : Nat
  rollup_block : Option Nat
  id : Nat
  deriving DecidableEq, Repr

/-- `struct L2Receipt` (output shape). -/
structure L2Receipt where
  tx_hash : List Nat
  rollup_block : Option Nat
  status : L2Status
  fail_reason : Option (List Char)
  deriving DecidableEq, Repr

/-- `enum Receipt` (tagged union of the two receipt shapes). -/
inductive Receipt where
  | L1 (r : L1Receipt)
  | L2 (r : L2Receipt)
  deriving DecidableEq, Repr

/-- `struct Transaction` (output shape inside `TxData`). -/
structure Transaction where
  tx_hash : List Nat
  block_number : Option Nat
  op : JsonValue
  status : L2Status
  fail_reason : Option (List Char)
  created_at : Timestamp
  deriving DecidableEq, Repr

/-- `struct TxData` (output shape). -/
structure TxData where
  tx : Transaction
  eth_signature : Option (List Char)
  deriving DecidableEq, Repr

/-- Lowercase hex digit character of a nibble. -/
def hexChar (d : Nat) : Char :=
  if d < 10 then Char.ofNat ('0'.toNat + d) else Char.ofNat ('a'.toNat + (d - 10))

/-- `hex::encode`: each byte as two lowercase hex characters. -/
def hexEncode : List Nat → List Char
  | [] => []
  | b :: bs => hexChar (b / 16 % 16) :: hexChar (b % 16) :: hexEncode bs

/-- `ApiTransactionData::get_sign_bytes`: `"0x"` followed by the hex encoding
of the signature payload of either variant. -/
def ApiTransactionData.get_sign_bytes (eth_sign_data : EthSignData) : List Char :=
  ['0', 'x'] ++
    match eth_sign_data.signature with
    | .EthereumSignature sign => hexEncode sign
    | .EIP1271Signature bytes => hexEncode bytes

/-- `ApiTransactionData::is_block_finalized`: `confirmed` of the stored
aggregated `ExecuteBlocks` operation for the block, `false` when absent
(`unwrap_or_default`); paired with the query it issues. -/
def ApiTransactionData.is_block_finalized (storage : Storage) (block_number : Nat) :
    Bool × List StorageQuery :=
  (((storage.aggregated_execute_ops block_number).map (fun op => op.confirmed)).getD false,
   [.findAggregatedOperation block_number])

/-- `ApiTransactionData::get_l1_receipt`. -/
def ApiTransactionData.get_l1_receipt (storage : Storage) (eth_hash : List Nat) :
    Option L1Receipt × List StorageQuery :=
  match storage.executed_priority_ops eth_hash with
  | some receipt =>
    let eth_block := u64cast receipt.eth_block
    let rollup_block := some (u32cast receipt.block_number)
    let id := u64cast receipt.priority_op_serialid
    let fin := ApiTransactionData.is_block_finalized storage (u32cast receipt.block_number)
    let status := if fin.1 then L1Status.Finalized else L1Status.Committed
    (some { status, eth_block, rollup_block, id },
     .findPriorityOpByHash eth_hash :: fin.2)
  | none => (none, [.findPriorityOpByHash eth_hash])

/-- `ApiTransactionData::get_l2_receipt`. -/
def ApiTransactionData.get_l2_receipt (storage : Storage) (tx_hash : List Nat) :
    Option L2Receipt × List StorageQuery :=
  match storage.executed_txs tx_hash with
  | some receipt =>
    let rollup_block := some (u32cast receipt.block_number)
    let fail_reason := receipt.fail_reason
    let status :=
      if receipt.success then
        if receipt.verified then L2Status.Finalized else L2Status.Committed
      else L2Status.Rejected
    (some { tx_hash, rollup_block, status, fail_reason },
     [.findExecutedTxByHash tx_hash])
  | none =>
    if (storage.mempool tx_hash).isSome then
      (some { tx_hash, rollup_block := none, status := L2Status.Queued, fail_reason := none },
       [.findExecutedTxByHash tx_hash, .pendingPoolContains tx_hash])
    else
      (none, [.findExecutedTxByHash tx_hash, .pendingPoolContains tx_hash])

/-- `ApiTransactionData::tx_status` (the method on `&[u8; 32]`): L1 resolver
first, then L2 resolver, short-circuiting on the first hit. -/
def ApiTransactionData.tx_status (storage : Storage) (tx_hash : List Nat) :
    Option Receipt × List StorageQuery :=
  match ApiTransactionData.get_l1_receipt storage tx_hash with
  | (some receipt, qs) => (some (.L1 receipt), qs)
  | (none, qs1) =>
    let l2 := ApiTransactionData.get_l2_receipt storage tx_hash
    (l2.1.map Receipt.L2, qs1 ++ l2.2)

/-- `ApiTransactionData::get_l1_tx_data`. -/
def ApiTransactionData.get_l1_tx_data (storage : Storage) (eth_hash : List Nat) :
    Option TxData × List StorageQuery :=
  match storage.executed_priority_ops eth_hash with
  | some op =>
    let block_number := u32cast op.block_number
    let fin := ApiTransactionData.is_block_finalized storage block_number
    let status := if fin.1 then L2Status.Finalized else L2Status.Committed
    (some { tx := { tx_hash := eth_hash, block_number := some block_number,
                    op := op.operation, status, fail_reason := none,
                    created_at := op.created_at },
            eth_signature := none },
     .findPriorityOpByHash eth_hash :: fin.2)
  | none => (none, [.findPriorityOpByHash eth_hash])

/-- `ApiTransactionData::get_l2_tx_data`. -/
def ApiTransactionData.get_l2_tx_data (storage : Storage) (tx_hash : List Nat) :
    Option TxData × List StorageQuery :=
  match storage.executed_txs tx_hash with
  | some op =>
    let block_number := u32cast op.block_number
    let fin := ApiTransactionData.is_block_finalized storage block_number
    let status :=
      if op.success then
        if fin.1 then L2Status.Finalized else L2Status.Committed
      else L2Status.Rejected
    (some { tx := { tx_hash, block_number := some block_number, op := op.tx,
                    status, fail_reason := op.fail_reason, created_at := op.created_at },
            eth_signature := op.eth_sign_data.map ApiTransactionData.get_sign_bytes },
     .findExecutedTxByHash tx_hash :: fin.2)
  | none =>
    match storage.mempool tx_hash with
    | some op =>
      (some { tx := { tx_hash, block_number := none, op := op.tx,
                      status := L2Status.Queued, fail_reason := none,
                      created_at := op.created_at },
              eth_signature := op.eth_sign_data.map ApiTransactionData.get_sign_bytes },
       [.findExecutedTxByHash tx_hash, .findPendingTxByHash tx_hash])
    | none => (none, [.findExecutedTxByHash tx_hash, .findPendingTxByHash tx_hash])

/-- `ApiTransactionData::tx_data` (the method on `&[u8; 32]`): L1 data first,
then L2 data, short-circuiting on the first hit. -/
def ApiTransactionData.tx_data (storage : Storage) (tx_hash : List Nat) :
    Option TxData × List StorageQuery :=
  match ApiTransactionData.get_l1_tx_data storage tx_hash with
  | (some tx_data, qs) => (some tx_data, qs)
  | (none, qs1) =>
    let l2 := ApiTransactionData.get_l2_tx_data storage tx_hash
    (l2.1, qs1 ++ l2.2)

/-- Error outcome of the two endpoint handlers: a hex-decoding failure
(`InternalError::new(err)`), or the `"Incorrect tx_hash length"` internal
error produced when the decoded bytes are not exactly 32. -/
inductive ApiError where
  | DecodeError (e : FromHexError)
  | IncorrectTxHashLength
  deriving DecidableEq, Repr

/-- The endpoint handler `tx_status` (route `GET /transaction/{tx_hash}`):
decode the hash, require length 32, then run the resolver method. -/
def tx_status (tx_hash : List Char) (storage : Storage) :
    Except ApiError (Option Receipt) × List StorageQuery :=
  match decode_hash tx_hash with
  | .error err => (.error (.DecodeError err), [])
  | .ok bytes =>
    if bytes.length = 32 then
      let r := ApiTransactionData.tx_status storage bytes
      (.ok r.1, r.2)
    else (.error .IncorrectTxHashLength, [])

/-- The endpoint handler `tx_data` (route `GET /transaction/{tx_hash}/data`):
decode the hash, require length 32, then run the resolver method. -/
def tx_data (tx_hash : List Char) (storage : Storage) :
    Except ApiError (Option TxData) × List StorageQuery :=
  match decode_hash tx_hash with
  | .error err => (.error (.DecodeError err), [])
  | .ok bytes =>
    if bytes.length = 32 then
      let r := ApiTransactionData.tx_data storage bytes
      (.ok r.1, r.2)
    else (.error .IncorrectTxHashLength, [])

/-- The status a resolved receipt assigns to the transaction, viewed in the
L2 status space (an L1 receipt's status mapped through `From<L1Status>`). -/
def Receipt.resolvedStatus : Receipt → L2Status
  | .L1 r => L2Status.ofL1 r.status
  | .L2 r => r.status

/-- Spec-side predicate (for the amended C1): the executed record found for
the hash, if any, has its stored `verified` flag equal to the current
FinalityOracle answer for its rollup block. -/
def verifiedMatchesFinality (S : Storage) (h : List Nat) : Bool :=
  match S.executed_txs h with
  | some rec =>
    rec.verified == (ApiTransactionData.is_block_finalized S (u32cast rec.block_number)).1
  | none => true

/-- A fixed 32-byte identifier used by the concrete witnesses. -/
def hashA : List Nat := List.replicate 32 7

/-- Executed record: successful, not yet verified. -/
def recSuccessUnverified : ExecutedTxRecord :=
  { block_number := 100, success := true, verified := false, fail_reason := none,
    tx := "transfer", eth_sign_data := none, created_at := 5 }

/-- Executed record: successful and verified. -/
def recSuccessVerified : ExecutedTxRecord :=
  { block_number := 100, success := true, verified := true, fail_reason := none,
    tx := "transfer", eth_sign_data := none, created_at := 5 }

/-- Executed record: failed with a stored reason. -/
def recFailed : ExecutedTxRecord :=
  { block_number := 7, success := false, verified := false,
    fail_reason := some ['e', 'r', 'r'], tx := "transfer",
    eth_sign_data := none, created_at := 5 }

/-- Executed record violating the data-model convention: successful yet
carrying a stored fail reason. -/
def recSuccessWithReason : ExecutedTxRecord :=
  { block_number := 9, success := true, verified := false,
    fail_reason := some ['o', 'd', 'd'], tx := "transfer",
    eth_sign_data := none, created_at := 5 }

/-- Stored priority operation at rollup block 100. -/
def priOp : PriorityOpRecord :=
  { eth_block := 33, block_number := 100, priority_op_serialid := 4,
    operation := "deposit", created_at := 9 }

/-- Pending-pool record. -/
def pendingRec : MempoolTxRecord :=
  { tx := "transfer", eth_sign_data := none, created_at := 3 }

/-- Storage with every table empty. -/
def StEmpty : Storage :=
  { executed_priority_ops := fun _ => none,
    aggregated_execute_ops := fun _ => none,
    executed_txs := fun _ => none,
    mempool := fun _ => none }

/-- Storage holding an unverified successful executed record for `hashA`
whose block 100 already has a confirmed aggregated `ExecuteBlocks` fact. -/
def StExecConfirmed : Storage :=
  { StEmpty with
    executed_txs := fun k => if k = hashA then some recSuccessUnverified else none,
    aggregated_execute_ops := fun b => if b = 100 then some { confirmed := true } else none }

/-- Storage holding a verified successful executed record for `hashA` and no
aggregated operation at all. -/
def StExecVerifiedNoAgg : Storage :=
  { StEmpty with
    executed_txs := fun k => if k = hashA then some recSuccessVerified else none }

/-- Storage holding an unverified successful executed record for `hashA` and
no aggregated operation (so the verified flag agrees with the oracle). -/
def StExecNoAgg : Storage :=
  { StEmpty with
    executed_txs := fun k => if k = hashA then some recSuccessUnverified else none }

/-- Storage holding a failed executed record for `hashA`. -/
def StFailed : Storage :=
  { StEmpty with
    executed_txs := fun k => if k = hashA then some recFailed else none }

/-- Storage holding a priority operation for `hashA` with a confirmed
aggregated `ExecuteBlocks` fact for its block. -/
def StPriorityConfirmed : Storage :=
  { StEmpty with
    executed_priority_ops := fun k => if k = hashA then some priOp else none,
    aggregated_execute_ops := fun b => if b = 100 then some { confirmed := true } else none }

/-- Storage where `hashA` is only present in the pending pool. -/
def StMempoolOnly : Storage :=
  { StEmpty with mempool := fun k => if k = hashA then some pendingRec else none }

/-- Storage where `hashA` has both an executed record and a stale
pending-pool entry. -/
def StExecAndPending : Storage :=
  { StEmpty with
    executed_txs := fun k => if k = hashA then some recFailed else none,
    mempool := fun k => if k = hashA then some pendingRec else none }

/-- Storage holding the convention-violating successful-with-reason record. -/
def StSuccessWithReason : Storage :=
  { StEmpty with
    executed_txs := fun k => if k = hashA then some recSuccessWithReason else none }

/-- Decidable equality for `Except`, used to evaluate decoding results on
concrete inputs. -/
instance exceptDecEq {ε α : Type} [DecidableEq ε] [DecidableEq α] : DecidableEq (Except ε α)
  | .error a, .error b =>
    if h : a = b then isTrue (by rw [h]) else isFalse (fun hh => by cases hh; exact h rfl)
  | .error _, .ok _ => isFalse (fun hh => by cases hh)
  | .ok _, .error _ => isFalse (fun hh => by cases hh)
  | .ok a, .ok b =>
    if h : a = b then isTrue (by rw [h]) else isFalse (fun hh => by cases hh; exact h rfl)

/-- Helper: the pairwise decoding loop fails on any even-length list that
contains a non-hex-digit character. -/
theorem hexDecodeCore_error_of_bad : ∀ (l : List Char) (i : Nat) (c : Char),
    c ∈ l → hexDigitVal c = none → l.length % 2 = 0 →
    ∃ e, hexDecodeCore l i = .error e
  | [], _, c, hc, _, _ => absurd hc (List.not_mem_nil c)
  | [_], _, _, _, _, heven => by simp at heven
  | c1 :: c2 :: rest, i, c, hc, hbad, heven => by
    rcases hv1 : hexDigitVal c1 with _ | d1
    · exact ⟨.InvalidHexCharacter c1 i, by simp [hexDecodeCore, hv1]⟩
    · rcases hv2 : hexDigitVal c2 with _ | d2
      · exact ⟨.InvalidHexCharacter c2 (i + 1), by simp [hexDecodeCore, hv1, hv2]⟩
      · simp only [List.mem_cons] at hc
        rcases hc with rfl | rfl | hc
        · rw [hbad] at hv1; cases hv1
        · rw [hbad] at hv2; cases hv2
        · have hlen : rest.length % 2 = 0 := by
            simp only [List.length_cons] at heven; omega
          obtain ⟨e, he⟩ := hexDecodeCore_error_of_bad rest (i + 2) c hc hbad hlen
          exact ⟨e, by simp [hexDecodeCore, hv1, hv2, he, Except.map]⟩

/-- Helper: stripping after prepending a `0x` marker recovers the string. -/
theorem strip0x_append (s : List Char) : strip0x (['0', 'x'] ++ s) = s := by
  simp [strip0x]

/-- Helper: a string not starting with the `0x` marker is left unchanged. -/
theorem strip0x_of_not_marked (s : List Char) (h : s.take 2 ≠ ['0', 'x']) :
    strip0x s = s := by
  simp [strip0x, h]

/-- C6 counterexample: prefix insensitivity fails on a string that itself
starts with `0x` — `decode_hash ("0x" ++ "0xab")` errors on the inner `x`
while `decode_hash "0xab"` succeeds, so the claimed equation does not hold
for every string. -/
theorem c6_counterexample :
    decode_hash (['0', 'x'] ++ ['0', 'x', 'a', 'b']) ≠
      decode_hash ['0', 'x', 'a', 'b'] := by
  decide

/-- C6 (amended): prepending `0x` leaves the decoding result unchanged for
every string that does not itself start with `0x`; and decoding fails
whenever the remainder after the optional marker stripping has odd length or
contains a non-hex character. -/
theorem c6_decode_hash_amended :
    (∀ s : List Char, s.take 2 ≠ ['0', 'x'] →
       decode_hash (['0', 'x'] ++ s) = decode_hash s) ∧
    (∀ s : List Char, (strip0x s).length % 2 = 1 →
       decode_hash s = .error .OddLength) ∧
    (∀ (s : List Char) (c : Char), c ∈ strip0x s → hexDigitVal c = none →
       ∃ e, decode_hash s = .error e) := by
  refine ⟨?_, ?_, ?_⟩
  · intro s h
    rw [decode_hash, decode_hash, strip0x_append, strip0x_of_not_marked s h]
  · intro s h
    rw [decode_hash, hexDecode, if_pos (by omega)]
  · intro s c hc hbad
    rw [decode_hash, hexDecode]
    by_cases hpar : (strip0x s).length % 2 ≠ 0
    · rw [if_pos hpar]; exact ⟨.OddLength, rfl⟩
    · rw [if_neg hpar]
      exact hexDecodeCore_error_of_bad _ 0 c hc hbad (by omega)

/-- C6 witness: the amended statement evaluated at concrete inputs. -/
theorem c6_amended_witness :
    decode_hash (['0', 'x'] ++ ['a', 'b']) = decode_hash ['a', 'b'] ∧
    decode_hash ['a', 'b', 'c'] = .error .OddLength ∧
    ∃ e, decode_hash ['z', 'z'] = .error e :=
  ⟨c6_decode_hash_amended.1 ['a', 'b'] (by decide),
   c6_decode_hash_amended.2.1 ['a', 'b', 'c'] (by decide),
   c6_decode_hash_amended.2.2 ['z', 'z'] 'z' (by decide) (by decide)⟩

/-- C5: when hex decoding succeeds but yields a byte length other than 32,
both endpoint handlers return the length error, the result is the same for
every storage state, and no storage or finality query is issued (empty
query log). -/
theorem c5_length_error_before_storage (s : List Char) (bytes : List Nat)
    (hdec : decode_hash s = .ok bytes) (hlen : bytes.length ≠ 32) (S : Storage) :
    tx_status s S = (.error .IncorrectTxHashLength, []) ∧
    tx_data s S = (.error .IncorrectTxHashLength, []) := by
  constructor <;> simp [tx_status, tx_data, hdec, hlen]

/-- C5 witness: a two-character hex string decodes to one byte and both
endpoints report the length error with no storage query, on the empty
storage. -/
theorem c5_witness :
    tx_status ['a', 'b'] StEmpty = (.error .IncorrectTxHashLength, []) ∧
    tx_data ['a', 'b'] StEmpty = (.error .IncorrectTxHashLength, []) :=
  c5_length_error_before_storage ['a', 'b'] [171] (by decide) (by decide) StEmpty

/-- C1 counterexample: on a storage state holding, for one identifier, an
executed successful record with `verified = false` whose block has a
confirmed aggregated `ExecuteBlocks` fact, `tx_status` resolves the
transaction to `Committed` while `tx_data` resolves it to `Finalized`, so
the two public operations do not assign the same status. -/
theorem c1_counterexample :
    ((ApiTransactionData.tx_status StExecConfirmed hashA).1.map Receipt.resolvedStatus) =
      some L2Status.Committed ∧
    ((ApiTransactionData.tx_data StExecConfirmed hashA).1.map fun d => d.tx.status) =
      some L2Status.Finalized ∧
    L2Status.Committed ≠ L2Status.Finalized := by
  refine ⟨by decide, by decide, by decide⟩

/-- C1 (amended): `tx_status` and `tx_data` assign the same status to the
resolved transaction whenever any executed L2 record found for the hash has
its stored `verified` flag equal to the current FinalityOracle answer for
its block; receipt mode derives the executed-record status from `verified`,
data mode from the oracle, so without that agreement the two operations can
differ. -/
theorem c1_status_agreement (S : Storage) (h : List Nat)
    (hagree : verifiedMatchesFinality S h = true) :
    ((ApiTransactionData.tx_status S h).1.map Receipt.resolvedStatus) =
    ((ApiTransactionData.tx_data S h).1.map fun d => d.tx.status) := by
  unfold ApiTransactionData.tx_status ApiTransactionData.tx_data
  cases hp : S.executed_priority_ops h with
  | some rec =>
    simp only [ApiTransactionData.get_l1_receipt, ApiTransactionData.get_l1_tx_data, hp]
    cases hfin : (ApiTransactionData.is_block_finalized S (u32cast rec.block_number)).1 <;>
      simp [hfin, Receipt.resolvedStatus, L2Status.ofL1]
  | none =>
    unfold verifiedMatchesFinality at hagree
    simp only [ApiTransactionData.get_l1_receipt, ApiTransactionData.get_l1_tx_data, hp]
    cases he : S.executed_txs h with
    | some rec =>
      rw [he] at hagree
      simp only [beq_iff_eq] at hagree
      simp only [ApiTransactionData.get_l2_receipt, ApiTransactionData.get_l2_tx_data, he]
      cases hs : rec.success <;>
        simp [hs, hagree, Receipt.resolvedStatus]
    | none =>
      simp only [ApiTransactionData.get_l2_receipt, ApiTransactionData.get_l2_tx_data, he]
      cases hm : S.mempool h with
      | some p => simp [hm, Receipt.resolvedStatus]
      | none => simp [hm]

/-- C1 witness: on a state where the executed record's `verified` flag
agrees with the oracle answer, the amended agreement theorem applies. -/
theorem c1_agreement_witness :
    verifiedMatchesFinality StExecNoAgg hashA = true ∧
    ((ApiTransactionData.tx_status StExecNoAgg hashA).1.map Receipt.resolvedStatus) =
    ((ApiTransactionData.tx_data StExecNoAgg hashA).1.map fun d => d.tx.status) :=
  ⟨by decide, c1_status_agreement StExecNoAgg hashA (by decide)⟩

/-- C2 counterexample: a successful executed record with `verified = true`
whose block has no aggregated operation is resolved by `tx_data` to
`Committed`, not `Finalized`, so the claim fails for the data operation. -/
theorem c2_counterexample :
    StExecVerifiedNoAgg.executed_txs hashA = some recSuccessVerified ∧
    recSuccessVerified.success = true ∧
    recSuccessVerified.verified = true ∧
    ((ApiTransactionData.tx_data StExecVerifiedNoAgg hashA).1.map fun d => d.tx.status) =
      some L2Status.Committed := by
  refine ⟨by decide, by decide, by decide, by decide⟩

/-- C2 (amended): for a successful executed L2 record, `tx_status` resolves
the status from the stored `verified` flag (`Committed` when false,
`Finalized` when true, for all aggregated-operation facts), while `tx_data`
resolves it from the FinalityOracle answer for the record's block. -/
theorem c2_success_status (S : Storage) (h : List Nat) (rec : ExecutedTxRecord)
    (hl1 : S.executed_priority_ops h = none)
    (hexec : S.executed_txs h = some rec)
    (hsucc : rec.success = true) :
    (ApiTransactionData.tx_status S h).1 =
      some (.L2 { tx_hash := h, rollup_block := some (u32cast rec.block_number),
                  status := if rec.verified then .Finalized else .Committed,
                  fail_reason := rec.fail_reason }) ∧
    ∃ d, (ApiTransactionData.tx_data S h).1 = some d ∧
      d.tx.status =
        (if (ApiTransactionData.is_block_finalized S (u32cast rec.block_number)).1
         then L2Status.Finalized else L2Status.Committed) := by
  constructor
  · simp [ApiTransactionData.tx_status, ApiTransactionData.get_l1_receipt,
          ApiTransactionData.get_l2_receipt, hl1, hexec, hsucc]
  · simp only [ApiTransactionData.tx_data, ApiTransactionData.get_l1_tx_data,
               ApiTransactionData.get_l2_tx_data, hl1, hexec]
    exact ⟨_, rfl, by simp [hsucc]⟩

/-- C2 witness: the amended theorem evaluated on the state holding an
unverified successful record with no aggregated operation. -/
theorem c2_witness :
    (ApiTransactionData.tx_status StExecNoAgg hashA).1 =
      some (.L2 { tx_hash := hashA,
                  rollup_block := some (u32cast recSuccessUnverified.block_number),
                  status := if recSuccessUnverified.verified then .Finalized else .Committed,
                  fail_reason := recSuccessUnverified.fail_reason }) ∧
    ∃ d, (ApiTransactionData.tx_data StExecNoAgg hashA).1 = some d ∧
      d.tx.status =
        (if (ApiTransactionData.is_block_finalized StExecNoAgg
               (u32cast recSuccessUnverified.block_number)).1
         then L2Status.Finalized else L2Status.Committed) :=
  c2_success_status StExecNoAgg hashA recSuccessUnverified (by decide) (by decide) (by decide)

/-- C3: for a failed executed L2 record both public operations resolve the
status to `Rejected` with the stored fail reason, and the resolved value is
unchanged under any replacement of the aggregated-operation facts (the
finality answer does not influence the output). -/
theorem c3_rejected (S : Storage) (h : List Nat) (rec : ExecutedTxRecord)
    (hl1 : S.executed_priority_ops h = none)
    (hexec : S.executed_txs h = some rec)
    (hfail : rec.success = false) :
    (ApiTransactionData.tx_status S h).1 =
      some (.L2 { tx_hash := h, rollup_block := some (u32cast rec.block_number),
                  status := .Rejected, fail_reason := rec.fail_reason }) ∧
    (∃ d, (ApiTransactionData.tx_data S h).1 = some d ∧
       d.tx.status = .Rejected ∧ d.tx.fail_reason = rec.fail_reason) ∧
    (∀ aggr : Nat → Option StoredAggregatedOperation,
       (ApiTransactionData.tx_status { S with aggregated_execute_ops := aggr } h).1 =
         (ApiTransactionData.tx_status S h).1 ∧
       (ApiTransactionData.tx_data { S with aggregated_execute_ops := aggr } h).1 =
         (ApiTransactionData.tx_data S h).1) := by
  refine ⟨?_, ?_, ?_⟩
  · simp [ApiTransactionData.tx_status, ApiTransactionData.get_l1_receipt,
          ApiTransactionData.get_l2_receipt, hl1, hexec, hfail]
  · simp only [ApiTransactionData.tx_data, ApiTransactionData.get_l1_tx_data,
               ApiTransactionData.get_l2_tx_data, hl1, hexec]
    exact ⟨_, rfl, by simp [hfail], rfl⟩
  · intro aggr
    constructor <;>
      simp [ApiTransactionData.tx_status, ApiTransactionData.tx_data,
            ApiTransactionData.get_l1_receipt, ApiTransactionData.get_l1_tx_data,
            ApiTransactionData.get_l2_receipt, ApiTransactionData.get_l2_tx_data,
            ApiTransactionData.is_block_finalized, hl1, hexec, hfail]

/-- C3 witness: the theorem evaluated on the state holding a failed record. -/
theorem c3_witness :
    (ApiTransactionData.tx_status StFailed hashA).1 =
      some (.L2 { tx_hash := hashA, rollup_block := some (u32cast recFailed.block_number),
                  status := .Rejected, fail_reason := recFailed.fail_reason }) ∧
    (∃ d, (ApiTransactionData.tx_data StFailed hashA).1 = some d ∧
       d.tx.status = .Rejected ∧ d.tx.fail_reason = recFailed.fail_reason) ∧
    (∀ aggr : Nat → Option StoredAggregatedOperation,
       (ApiTransactionData.tx_status { StFailed with aggregated_execute_ops := aggr } hashA).1 =
         (ApiTransactionData.tx_status StFailed hashA).1 ∧
       (ApiTransactionData.tx_data { StFailed with aggregated_execute_ops := aggr } hashA).1 =
         (ApiTransactionData.tx_data StFailed hashA).1) :=
  c3_rejected StFailed hashA recFailed (by decide) (by decide) (by decide)

/-- C4: for a stored executed priority operation, the L1 receipt exists and
its status is `Finalized` exactly when a stored aggregated `ExecuteBlocks`
operation for the record's rollup block exists with `confirmed = true`,
`Committed` otherwise (absence of the aggregated fact included); the status
is always one of `Committed`/`Finalized`, and the L1 data result, whose
status lives in the L2 status space, is likewise never `Queued` or
`Rejected`. -/
theorem c4_l1_status (S : Storage) (h : List Nat) (rec : PriorityOpRecord)
    (hl1 : S.executed_priority_ops h = some rec) :
    ∃ r, (ApiTransactionData.get_l1_receipt S h).1 = some r ∧
      (r.status = .Finalized ↔
        ∃ a, S.aggregated_execute_ops (u32cast rec.block_number) = some a ∧
          a.confirmed = true) ∧
      (S.aggregated_execute_ops (u32cast rec.block_number) = none →
        r.status = .Committed) ∧
      (r.status = .Committed ∨ r.status = .Finalized) ∧
      ∃ d, (ApiTransactionData.get_l1_tx_data S h).1 = some d ∧
        (d.tx.status = .Committed ∨ d.tx.status = .Finalized) := by
  simp only [ApiTransactionData.get_l1_receipt, ApiTransactionData.get_l1_tx_data,
             ApiTransactionData.is_block_finalized, hl1]
  obtain ⟨o, ho⟩ : ∃ o, S.aggregated_execute_ops (u32cast rec.block_number) = o := ⟨_, rfl⟩
  simp only [ho]
  cases o with
  | none => refine ⟨_, rfl, ?_, ?_, ?_, _, rfl, ?_⟩ <;> simp
  | some a =>
    obtain ⟨c⟩ := a
    cases c with
    | false => refine ⟨_, rfl, ?_, ?_, ?_, _, rfl, ?_⟩ <;> simp
    | true => refine ⟨_, rfl, ?_, ?_, ?_, _, rfl, ?_⟩ <;> simp

/-- C4 witness: the theorem evaluated on the state holding a priority
operation with a confirmed aggregated fact for block 100. -/
theorem c4_witness :
    ∃ r, (ApiTransactionData.get_l1_receipt StPriorityConfirmed hashA).1 = some r ∧
      (r.status = .Finalized ↔
        ∃ a, StPriorityConfirmed.aggregated_execute_ops (u32cast priOp.block_number) = some a ∧
          a.confirmed = true) ∧
      (StPriorityConfirmed.aggregated_execute_ops (u32cast priOp.block_number) = none →
        r.status = .Committed) ∧
      (r.status = .Committed ∨ r.status = .Finalized) ∧
      ∃ d, (ApiTransactionData.get_l1_tx_data StPriorityConfirmed hashA).1 = some d ∧
        (d.tx.status = .Committed ∨ d.tx.status = .Finalized) :=
  c4_l1_status StPriorityConfirmed hashA priOp (by decide)

/-- C7: for a 32-byte identifier matching no priority operation and no
executed L2 record but present in the pending pool, both public operations
return a hit with status `Queued`, no rollup block / block number and no
fail reason. -/
theorem c7_pending_queued (S : Storage) (h : List Nat) (p : MempoolTxRecord)
    (h32 : h.length = 32)
    (hl1 : S.executed_priority_ops h = none)
    (hexec : S.executed_txs h = none)
    (hmem : S.mempool h = some p) :
    (ApiTransactionData.tx_status S h).1 =
      some (.L2 { tx_hash := h, rollup_block := none, status := .Queued,
                  fail_reason := none }) ∧
    (ApiTransactionData.tx_data S h).1 =
      some { tx := { tx_hash := h, block_number := none, op := p.tx,
                     status := .Queued, fail_reason := none,
                     created_at := p.created_at },
             eth_signature := p.eth_sign_data.map ApiTransactionData.get_sign_bytes } := by
  constructor <;>
    simp [ApiTransactionData.tx_status, ApiTransactionData.tx_data,
          ApiTransactionData.get_l1_receipt, ApiTransactionData.get_l1_tx_data,
          ApiTransactionData.get_l2_receipt, ApiTransactionData.get_l2_tx_data,
          hl1, hexec, hmem]

/-- C7 witness: the theorem evaluated on the state where the identifier is
only in the pending pool. -/
theorem c7_witness :
    (ApiTransactionData.tx_status StMempoolOnly hashA).1 =
      some (.L2 { tx_hash := hashA, rollup_block := none, status := .Queued,
                  fail_reason := none }) ∧
    (ApiTransactionData.tx_data StMempoolOnly hashA).1 =
      some { tx := { tx_hash := hashA, block_number := none, op := pendingRec.tx,
                     status := .Queued, fail_reason := none,
                     created_at := pendingRec.created_at },
             eth_signature := pendingRec.eth_sign_data.map ApiTransactionData.get_sign_bytes } :=
  c7_pending_queued StMempoolOnly hashA pendingRec (by decide) (by decide) (by decide) (by decide)

/-- C8: when an identifier has both an executed L2 record and a stale
pending-pool entry, both public operations return the executed-record-derived
result (never the `Queued` pending one), and neither operation issues a
pending-pool query. -/
theorem c8_executed_precedence (S : Storage) (h : List Nat)
    (rec : ExecutedTxRecord) (p : MempoolTxRecord)
    (hl1 : S.executed_priority_ops h = none)
    (hexec : S.executed_txs h = some rec)
    (hmem : S.mempool h = some p) :
    (ApiTransactionData.tx_status S h).1 =
      some (.L2 { tx_hash := h, rollup_block := some (u32cast rec.block_number),
                  status := if rec.success then
                      (if rec.verified then .Finalized else .Committed)
                    else .Rejected,
                  fail_reason := rec.fail_reason }) ∧
    (ApiTransactionData.tx_data S h).1 =
      some { tx := { tx_hash := h, block_number := some (u32cast rec.block_number),
                     op := rec.tx,
                     status := if rec.success then
                         (if (ApiTransactionData.is_block_finalized S
                                (u32cast rec.block_number)).1
                          then .Finalized else .Committed)
                       else .Rejected,
                     fail_reason := rec.fail_reason, created_at := rec.created_at },
             eth_signature := rec.eth_sign_data.map ApiTransactionData.get_sign_bytes } ∧
    StorageQuery.pendingPoolContains h ∉ (ApiTransactionData.tx_status S h).2 ∧
    StorageQuery.findPendingTxByHash h ∉ (ApiTransactionData.tx_status S h).2 ∧
    StorageQuery.pendingPoolContains h ∉ (ApiTransactionData.tx_data S h).2 ∧
    StorageQuery.findPendingTxByHash h ∉ (ApiTransactionData.tx_data S h).2 := by
  refine ⟨?_, ?_, ?_, ?_, ?_, ?_⟩ <;>
    simp [ApiTransactionData.tx_status, ApiTransactionData.tx_data,
          ApiTransactionData.get_l1_receipt, ApiTransactionData.get_l1_tx_data,
          ApiTransactionData.get_l2_receipt, ApiTransactionData.get_l2_tx_data,
          ApiTransactionData.is_block_finalized, hl1, hexec, hmem]

/-- C8 witness: the theorem evaluated on the state where the identifier has
both an executed record and a pending-pool entry. -/
theorem c8_witness :
    (ApiTransactionData.tx_status StExecAndPending hashA).1 =
      some (.L2 { tx_hash := hashA, rollup_block := some (u32cast recFailed.block_number),
                  status := if recFailed.success then
                      (if recFailed.verified then .Finalized else .Committed)
                    else .Rejected,
                  fail_reason := recFailed.fail_reason }) ∧
    (ApiTransactionData.tx_data StExecAndPending hashA).1 =
      some { tx := { tx_hash := hashA,
                     block_number := some (u32cast recFailed.block_number),
                     op := recFailed.tx,
                     status := if recFailed.success then
                         (if (ApiTransactionData.is_block_finalized StExecAndPending
                                (u32cast recFailed.block_number)).1
                          then .Finalized else .Committed)
                       else .Rejected,
                     fail_reason := recFailed.fail_reason,
                     created_at := recFailed.created_at },
             eth_signature := recFailed.eth_sign_data.map ApiTransactionData.get_sign_bytes } ∧
    StorageQuery.pendingPoolContains hashA ∉ (ApiTransactionData.tx_status StExecAndPending hashA).2 ∧
    StorageQuery.findPendingTxByHash hashA ∉ (ApiTransactionData.tx_status StExecAndPending hashA).2 ∧
    StorageQuery.pendingPoolContains hashA ∉ (ApiTransactionData.tx_data StExecAndPending hashA).2 ∧
    StorageQuery.findPendingTxByHash hashA ∉ (ApiTransactionData.tx_data StExecAndPending hashA).2 :=
  c8_executed_precedence StExecAndPending hashA recFailed pendingRec
    (by decide) (by decide) (by decide)

/-- C9: the L1 path always produces present optional fields — for a stored
priority operation, `get_l1_receipt` returns `rollup_block = some` of the
stored block and `get_l1_tx_data` returns `block_number = some` of it, with
`fail_reason = none` and `eth_signature = none`. -/
theorem c9_l1_fields_present (S : Storage) (h : List Nat) (rec : PriorityOpRecord)
    (hl1 : S.executed_priority_ops h = some rec) :
    (∃ r, (ApiTransactionData.get_l1_receipt S h).1 = some r ∧
       r.rollup_block = some (u32cast rec.block_number)) ∧
    (∃ d, (ApiTransactionData.get_l1_tx_data S h).1 = some d ∧
       d.tx.block_number = some (u32cast rec.block_number) ∧
       d.tx.fail_reason = none ∧ d.eth_signature = none) := by
  constructor
  · simp only [ApiTransactionData.get_l1_receipt, hl1]
    exact ⟨_, rfl, rfl⟩
  · simp only [ApiTransactionData.get_l1_tx_data, hl1]
    exact ⟨_, rfl, rfl, rfl, rfl⟩

/-- C9 witness: the theorem evaluated on the state holding a priority
operation. -/
theorem c9_witness :
    (∃ r, (ApiTransactionData.get_l1_receipt StPriorityConfirmed hashA).1 = some r ∧
       r.rollup_block = some (u32cast priOp.block_number)) ∧
    (∃ d, (ApiTransactionData.get_l1_tx_data StPriorityConfirmed hashA).1 = some d ∧
       d.tx.block_number = some (u32cast priOp.block_number) ∧
       d.tx.fail_reason = none ∧ d.eth_signature = none) :=
  c9_l1_fields_present StPriorityConfirmed hashA priOp (by decide)

/-- C10: in receipt mode the returned `fail_reason` is the stored one
unconditionally — for every executed record found, `get_l2_receipt` returns
`fail_reason` equal to the record's stored field, and when the record is
successful the status is `Committed` or `Finalized` alongside whatever fail
reason was stored. -/
theorem c10_fail_reason_passthrough (S : Storage) (h : List Nat)
    (rec : ExecutedTxRecord)
    (hexec : S.executed_txs h = some rec) :
    ∃ r, (ApiTransactionData.get_l2_receipt S h).1 = some r ∧
      r.fail_reason = rec.fail_reason ∧
      (rec.success = true → r.status = .Committed ∨ r.status = .Finalized) := by
  simp only [ApiTransactionData.get_l2_receipt, hexec]
  refine ⟨_, rfl, rfl, ?_⟩
  intro hsucc
  cases hv : rec.verified <;> simp [hsucc, hv]

/-- C10 witness: on the state holding a successful record that nevertheless
stores a fail reason, the receipt carries that reason with a `Committed`
status. -/
theorem c10_witness :
    ∃ r, (ApiTransactionData.get_l2_receipt StSuccessWithReason hashA).1 = some r ∧
      r.fail_reason = recSuccessWithReason.fail_reason ∧
      (recSuccessWithReason.success = true →
        r.status = .Committed ∨ r.status = .Finalized) :=
  c10_fail_reason_passthrough StSuccessWithReason hashA recSuccessWithReason (by decide)
